import Mathlib

/-!
Verification development for the outlier-detection pipeline in
app/outlier_las.py.

The pipeline is embedded shallowly:

* a CSV file is a list of rows, each row a list of string fields;
* the pandas DataFrame that flows through the pipeline is a list of
  `SRow` values; the three canonical columns (Name, Timestamp, Price)
  are plain fields, and the columns that the scorer adds in place
  (Price-Mean, % Deviation, Mean of 30 Selected Datapoints) are
  `Option`-valued fields whose outer `none` means "column absent";
* arithmetic is exact over the rationals.  A float NaN is modelled as
  an inner `none`; in exact arithmetic the statistics of finite inputs
  are finite or NaN, never infinite, so the np.isinf test of the source
  is the constantly-false `isinfOpt` (floating-point overflow and
  rounding are outside the model);
* the sample standard deviation is kept as the sample variance
  (`svarQ`); the comparison x > 2 * sqrt v is encoded in exact
  arithmetic by `pmGtThreshold` (0 < x and 4 v < x ^ 2), and the
  bridging lemma `pmGtThreshold_iff_real` proves this equal to the
  real-number inequality against 2 * Real.sqrt v;
* the per-row value of the scorer column "% Deviation", which involves
  a square root, is kept symbolically in `DevFormula`, whose
  real-number reading is the relation `DevFormula.val`;
* the sampler draw: line 56 of the source calls sample(1) on a pandas
  Index (the difference of the table index and its last 29 entries),
  but pandas.Index has no sample method in any released version, so
  every call that reaches the draw raises AttributeError, caught by the
  except-Exception arm and re-raised as an unexpected error; this is
  `PErr.attributeError`.  The `chosen` argument of random_data_points
  stands for the draw the line was written to make and is never
  consumed; the clamp of line 59 and the window-length check of line 65
  are dead code, kept as `clampStart` and `PErr.insufficientData`;
* numeric-literal parsing of CSV fields is modelled for optionally
  signed integer literals (`strToInt`); datetimes are abstracted as
  integers, and
  an unparsable timestamp becomes `none` (NaT).  A missing value is an
  empty field (the NaN-literal spellings recognised by the reader are
  not modelled).
-/

deriving instance DecidableEq for Except

set_option maxRecDepth 100000

namespace OutlierLas

/-- The canonical header row, list(df.columns) == ["Name", "Timestamp", "Price"]. -/
def canonHeader : List String := ["Name", "Timestamp", "Price"]

/-- A record as produced by read_csv: the three canonical fields, still raw text. -/
structure RawRecord where
  name : String
  timestamp : String
  price : String
deriving DecidableEq

/-- Positional assignment of a CSV row to the canonical columns
(pd.read_csv with names=["Name", "Timestamp", "Price"]); a missing field is
the empty string, which is the model of a NaN cell. -/
def toRecord (row : List String) : RawRecord :=
  { name := row.getD 0 "", timestamp := row.getD 1 "", price := row.getD 2 "" }

/-- read_csv_with_headers: read the first row; if it textually equals the
canonical header, re-read treating it as a header row, otherwise re-read the
whole file assigning the canonical names positionally. -/
def read_csv_with_headers (file : List (List String)) : List RawRecord :=
  if file.head? = some canonHeader then file.tail.map toRecord
  else file.map toRecord

/-- Accumulates the value of a run of decimal digits; none when a
non-digit appears. -/
def natOfDigits : List Char → ℕ → Option ℕ
  | [], acc => some acc
  | c :: cs, acc =>
    if ('0' ≤ c && c ≤ '9') then natOfDigits cs (acc * 10 + (c.toNat - 48)) else none

/-- An optionally-signed decimal integer literal (the numeric literal
syntax the model recognises, standing in for the library parsers). -/
def strToInt : String → Option Int := fun s =>
  match s.data with
  | [] => none
  | '-' :: cs =>
    match cs with
    | [] => none
    | _ => (natOfDigits cs 0).map fun n => -(n : Int)
  | cs => (natOfDigits cs 0).map fun n => (n : Int)

/-- pd.to_datetime with errors="coerce", datetimes abstracted as integers;
an unparsable value becomes none (NaT). -/
def parseTimestamp (s : String) : Option Int := strToInt s

/-- A Price cell: still raw text as loaded, or numeric after the scorer
coerces the column with pd.to_numeric. -/
inductive PCell where
  | raw (s : String)
  | num (q : ℚ)
deriving DecidableEq

/-- The numeric value of a Price cell, if any; raw text is parsed as an
integer literal (the model of pd.to_numeric on one cell). -/
def PCell.asNum : PCell → Option ℚ
  | .raw s => (strToInt s).map fun n => (n : ℚ)
  | .num q => some q

/-- The symbolic value of a "% Deviation" cell.  `overMean pm m` stands for
(pm / m) * 100 as assigned at scoring time to every row, and
`overThreshold pm v` stands for (pm / (2 * sqrt v)) * 100 as reassigned to
the outlier rows; an operand none is a NaN. -/
inductive DevFormula where
  | overMean (pm mean : Option ℚ)
  | overThreshold (pm svar : Option ℚ)
deriving DecidableEq

/-- The real number denoted by a "% Deviation" cell, as a relation (the
threshold variant divides by a square root).  A formula with a NaN or
zero-denominator operand denotes no finite value. -/
def DevFormula.val : DevFormula → ℝ → Prop
  | .overMean (some pm) (some m), x => (m : ℝ) ≠ 0 ∧ x = ((pm : ℝ) / (m : ℝ)) * 100
  | .overThreshold (some pm) (some v), x =>
      (0 : ℝ) < (v : ℝ) ∧ x = ((pm : ℝ) / (2 * Real.sqrt (v : ℝ))) * 100
  | _, _ => False

/-- A row of the DataFrame while it moves through the pipeline.  `name`,
`timestamp`, `price` are the canonical columns (timestamp already coerced by
the sampler, none = NaT).  `pm`, `dev`, `meanF` are the Price-Mean,
% Deviation and Mean of 30 Selected Datapoints columns the scorer assigns in
place; their outer none means the column is absent, an inner none is NaN. -/
structure SRow where
  name : String
  timestamp : Option Int
  price : PCell
  pm : Option (Option ℚ) := none
  dev : Option DevFormula := none
  meanF : Option (Option ℚ) := none
deriving DecidableEq

/-- data.isnull().values.any() restricted to one row of the three canonical
columns: an empty Name or Price field is a NaN cell, a none timestamp is NaT. -/
def SRow.hasNull (r : SRow) : Bool :=
  r.name = "" || r.timestamp = none || r.price = PCell.raw ""

/-- The errors a single file can raise; constructors follow the spec error
taxonomy, plus `attributeError` for the AttributeError of line 56: the
sample method the line calls does not exist on a pandas Index, so the draw
itself raises, wrapped by the except-Exception arm as an unexpected error.
`insufficientData` is the ValueError of line 65, unreachable because line
56 raises first. -/
inductive PErr where
  | invalidTimestamps
  | attributeError
  | insufficientData
  | missingValues
  | nonNumericPrice
  | degenerateStatistics
  | emptyFile
deriving DecidableEq

/-- The table, with the Timestamp column coerced to datetime, as it stands
when the sampler reaches the line-56 draw. -/
def coerceRows (file : List (List String)) : List SRow :=
  (read_csv_with_headers file).map fun r =>
    { name := r.name, timestamp := parseTimestamp r.timestamp, price := PCell.raw r.price }

/-- The index set df.index.difference(df.index[-29:]) that line 56
constructs before its failing attribute lookup: all row indices minus the
last 29.  The tail carve-out is the hard-coded 29 of the source,
independent of num_points; the draw from this set never happens, because
the sample attribute of the next call in the chain does not exist. -/
def candidateStarts (len : ℕ) : List ℕ := List.range (len - 29)

/-- The candidate start set as worded by the spec: all row indices excluding
the last (N - 1) indices of the table.  Modelled from the spec for
comparison with `candidateStarts`; the source hard-codes 29. -/
def specCandidateStarts (len numPoints : ℕ) : List ℕ := List.range (len - (numPoints - 1))

/-- The backward clamp written at line 59 of the source,
start = max(0, start_index - num_points + 1), rendered with truncated
subtraction.  Dead code: line 56 raises before any start index exists. -/
def clampStart (chosen num_points : ℕ) : ℕ := chosen + 1 - num_points

/-- random_data_points: load the table, coerce timestamps, fail when every
timestamp is invalid, then draw a start index at line 56 - which raises
AttributeError unconditionally, because pandas.Index has no sample method.
The function therefore has no success path: the clamp (line 59), the window
slice (line 62) and the insufficient-data check (line 65) are dead code.
The `chosen` argument stands for the draw line 56 was written to make and
is never consumed. -/
def random_data_points (chosen : ℕ) (file : List (List String)) (num_points : ℕ := 30) :
    Except PErr (List SRow) :=
  let df := coerceRows file
  if df.all fun r => r.timestamp = none then .error .invalidTimestamps
  else .error .attributeError

/-- The Price column of a frame, as numbers (the rows the scorer works on
all carry numeric prices, so filterMap loses nothing there). -/
def outPrices (data : List SRow) : List ℚ := data.filterMap fun r => r.price.asNum

/-- Series.mean: NaN (none) on an empty column. -/
def meanQ (l : List ℚ) : Option ℚ :=
  if l.length = 0 then none else some (l.sum / (l.length : ℚ))

/-- Series.std with ddof = 1, kept as the sample variance (the square of the
standard deviation): NaN (none) when fewer than two values. -/
def svarQ (l : List ℚ) : Option ℚ :=
  if l.length ≤ 1 then none
  else some ((l.map fun p => (p - l.sum / (l.length : ℚ)) ^ 2).sum / ((l.length : ℚ) - 1))

/-- np.isinf on a statistic of the model: a finite rational or a NaN is
never infinite (exact arithmetic cannot overflow). -/
def isinfOpt (_ : Option ℚ) : Bool := false

/-- Price-Mean of one row: price minus mean, NaN-propagating. -/
def osub : Option ℚ → Option ℚ → Option ℚ
  | some a, some b => some (a - b)
  | _, _ => none

/-- Float division restricted to finite results: none when the denominator
is zero (the float quotient would be infinite) or an operand is NaN. -/
def odiv : Option ℚ → Option ℚ → Option ℚ
  | some a, some b => if b = 0 then none else some (a / b)
  | _, _ => none

/-- Scaling of a possibly-NaN value. -/
def omul (o : Option ℚ) (c : ℚ) : Option ℚ := o.map fun a => a * c

/-- pd.to_numeric over the Price column, keeping each row with its parsed
price; none when any cell fails to coerce. -/
def parsePrices : List SRow → Option (List (SRow × ℚ))
  | [] => some []
  | r :: rs =>
    match r.price.asNum, parsePrices rs with
    | some q, some rest => some ((r, q) :: rest)
    | _, _ => none

/-- The outlier test data["Price-Mean"] > threshold with threshold =
2 * std_dev: x > 2 * sqrt v encoded in exact arithmetic (valid because the
sample variance is nonnegative; see pmGtThreshold_iff_real).  A NaN or
absent operand compares false, as IEEE comparisons with NaN do. -/
def pmGtThreshold : Option (Option ℚ) → Option ℚ → Bool
  | some (some x), some v => decide (0 < x) && decide (4 * v < x ^ 2)
  | _, _ => false

/-- The in-place column assignments of lines 93 and 105-106 of the source,
applied to one row: coerce Price, add Price-Mean and the mean-denominator
% Deviation. -/
def scoreRow (r : SRow) (q : ℚ) (mean : Option ℚ) : SRow :=
  { r with price := PCell.num q, pm := some (osub (some q) mean),
           dev := some (.overMean (osub (some q) mean) mean) }

/-- The assignments of lines 110-111 of the source, applied to one outlier
row: add the window mean and overwrite % Deviation with the
threshold-denominator formula. -/
def markOutlier (r : SRow) (mean : Option ℚ) (svar : Option ℚ) : SRow :=
  { r with meanF := some mean, dev := some (.overThreshold (r.pm.getD none) svar) }

/-- detect_outliers: screen missing values, coerce Price, compute mean and
sample standard deviation, test them for infinity, assign the Price-Mean
and % Deviation columns in place, filter the rows strictly above
mean + 2 * std_dev, and decorate a nonempty outlier frame.  Returns the
post-call state of the input frame (the source mutates its argument in
place) together with the outlier frame. -/
def detect_outliers (data : List SRow) : Except PErr (List SRow × List SRow) :=
  if data.any SRow.hasNull then .error .missingValues
  else
    match parsePrices data with
    | none => .error .nonNumericPrice
    | some l =>
      let prices := l.map fun rq => rq.2
      let mean := meanQ prices
      let svar := svarQ prices
      if isinfOpt mean || isinfOpt svar then .error .degenerateStatistics
      else
        let rows := l.map fun rq => scoreRow rq.1 rq.2 mean
        let flagged := rows.filter fun r => pmGtThreshold r.pm svar
        let outliers := if flagged.isEmpty then flagged
          else flagged.map fun r => markOutlier r mean svar
        .ok (rows, outliers)

/-- A row of the written outlier report, fields in the column order of
to_csv. -/
structure ReportRow where
  name : String
  timestamp : Option Int
  actualPrice : Option ℚ
  meanOf30 : Option ℚ
  priceMean : Option ℚ
  pctDeviation : Option ℚ
deriving DecidableEq

/-- Lines 137-142 of the source on one outlier row: Actual Price from the
coerced Price column, the window mean recomputed, Price-Mean and the
mean-denominator % Deviation. -/
def mkReportRow (r : SRow) (mean30 : Option ℚ) : ReportRow :=
  { name := r.name, timestamp := r.timestamp,
    actualPrice := r.price.asNum,
    meanOf30 := mean30,
    priceMean := osub r.price.asNum mean30,
    pctDeviation := omul (odiv (osub r.price.asNum mean30) mean30) 100 }

/-- What one file produces: a logged error with the file path as context, a
no-outliers log line, or a written report. -/
inductive FileOutcome where
  | errorLogged (path : String) (e : PErr)
  | noOutliers (path : String)
  | reportWritten (path : String) (rows : List ReportRow)
deriving DecidableEq

/-- The try block of process_file: load (failing on an empty table), sample,
score, and when outliers exist assemble and write the report, recomputing
the mean from the sampled frame (which the scorer has mutated: its Price
column is numeric there).  The control flow is embedded as written; in
execution the sampling step always errors, so the scoring and report
branches of this function are dead code. -/
def process_fileInner (chosen : ℕ) (path : String) (file : List (List String)) :
    Except PErr FileOutcome :=
  let df := read_csv_with_headers file
  if df.isEmpty then .error .emptyFile
  else
    match random_data_points chosen file with
    | .error e => .error e
    | .ok sampled =>
      match detect_outliers sampled with
      | .error e => .error e
      | .ok (post, outliers) =>
        if outliers.isEmpty then .ok (.noOutliers path)
        else
          let mean30 := meanQ (outPrices post)
          .ok (.reportWritten path (outliers.map fun r => mkReportRow r mean30))

/-- process_file: every error of the try block is caught and logged with the
file path; nothing propagates. -/
def process_file (chosen : ℕ) (path : String) (file : List (List String)) : FileOutcome :=
  match process_fileInner chosen path file with
  | .ok o => o
  | .error e => .errorLogged path e

/-- The errors the directory walk itself can raise. -/
inductive DirErr where
  | directoryNotFound
  | invalidFileCount
deriving DecidableEq

/-- A directory entry: a file name and its contents. -/
structure DirFile where
  name : String
  content : List (List String)

/-- str.endswith over the character lists of the two strings. -/
def strEndsWith (s suffix : String) : Bool := suffix.data.isSuffixOf s.data

/-- The eligible files of a directory listing: the ones whose name ends in
".csv", in listing order. -/
def csvList (files : List DirFile) : List DirFile :=
  files.filter fun f => strEndsWith f.name ".csv"

/-- process_files_in_directory: none models a nonexistent path
(os.listdir raising FileNotFoundError); the eligible-file count must be 1
or 2 before any file is processed; each eligible file is then processed
with its own random draw (rand i for the i-th one), and only its logged
outcome is collected. -/
def process_files_in_directory (rand : ℕ → ℕ) (dir : Option (List DirFile)) :
    Except DirErr (List FileOutcome) :=
  match dir with
  | none => .error .directoryNotFound
  | some files =>
    if (csvList files).length = 1 ∨ (csvList files).length = 2 then
      .ok ((csvList files).mapIdx fun i f => process_file (rand i) f.name f.content)
    else .error .invalidFileCount

/-- The canonical three columns of a row, the part of a frame that exists
before the scorer runs. -/
def SRow.core (r : SRow) : String × Option Int × PCell := (r.name, r.timestamp, r.price)

/-! ### Arithmetic bridge: the squared comparison against 2 times a square root -/

theorem gt_two_sqrt_iff (x v : ℝ) (hv : 0 ≤ v) :
    x > 2 * Real.sqrt v ↔ 0 < x ∧ 4 * v < x ^ 2 := by
  have h4 : Real.sqrt (4 * v) = 2 * Real.sqrt v := by
    rw [show (4 : ℝ) = 2 ^ 2 by norm_num, Real.sqrt_mul (by positivity) v, Real.sqrt_sq (by norm_num : (0:ℝ) ≤ 2)]
  constructor
  · intro h
    have hx : 0 < x := lt_of_le_of_lt (by positivity) h
    refine ⟨hx, ?_⟩
    have h2 : Real.sqrt (4 * v) < x := by rw [h4]; exact h
    exact (Real.sqrt_lt' hx).mp h2
  · rintro ⟨hx, h2⟩
    have := (Real.sqrt_lt' hx).mpr h2
    rw [h4] at this
    exact this

theorem pmGtThreshold_iff_real (x v : ℚ) (hv : 0 ≤ v) :
    pmGtThreshold (some (some x)) (some v) = true ↔
      ((x : ℝ) > 2 * Real.sqrt (v : ℝ)) := by
  have hv' : (0 : ℝ) ≤ (v : ℝ) := by exact_mod_cast hv
  rw [gt_two_sqrt_iff _ _ hv']
  simp only [pmGtThreshold, Bool.and_eq_true, decide_eq_true_eq]
  constructor
  · rintro ⟨h1, h2⟩
    exact ⟨by exact_mod_cast h1, by exact_mod_cast h2⟩
  · rintro ⟨h1, h2⟩
    exact ⟨by exact_mod_cast h1, by exact_mod_cast h2⟩

/-! ### Facts about the statistics -/

theorem meanQ_some {l : List ℚ} {m : ℚ} (h : meanQ l = some m) :
    l ≠ [] ∧ m = l.sum / (l.length : ℚ) := by
  unfold meanQ at h
  split at h
  · exact absurd h (by simp)
  · rename_i hlen
    refine ⟨fun hnil => hlen (by simp [hnil]), ?_⟩
    exact (Option.some_injective _ h).symm

theorem svarQ_some {l : List ℚ} {v : ℚ} (h : svarQ l = some v) :
    2 ≤ l.length ∧ v = (l.map fun p => (p - l.sum / (l.length : ℚ)) ^ 2).sum / ((l.length : ℚ) - 1) := by
  unfold svarQ at h
  split at h
  · exact absurd h (by simp)
  · rename_i hlen
    exact ⟨by omega, (Option.some_injective _ h).symm⟩

theorem svarQ_nonneg {l : List ℚ} {v : ℚ} (h : svarQ l = some v) : 0 ≤ v := by
  obtain ⟨hlen, hv⟩ := svarQ_some h
  have hsum : 0 ≤ (l.map fun p => (p - l.sum / (l.length : ℚ)) ^ 2).sum := by
    apply List.sum_nonneg
    intro x hx
    obtain ⟨p, _, rfl⟩ := List.mem_map.mp hx
    exact sq_nonneg _
  have hden : 0 < (l.length : ℚ) - 1 := by
    have : (2 : ℚ) ≤ (l.length : ℚ) := by exact_mod_cast hlen
    linarith
  rw [hv]
  positivity

theorem svarQ_pos {l : List ℚ} {v p : ℚ} (h : svarQ l = some v) (hp : p ∈ l)
    (hne : p - l.sum / (l.length : ℚ) ≠ 0) : 0 < v := by
  obtain ⟨hlen, hv⟩ := svarQ_some h
  have hmem : (p - l.sum / (l.length : ℚ)) ^ 2 ∈ l.map fun q => (q - l.sum / (l.length : ℚ)) ^ 2 :=
    List.mem_map_of_mem _ hp
  have hle : (p - l.sum / (l.length : ℚ)) ^ 2 ≤ (l.map fun q => (q - l.sum / (l.length : ℚ)) ^ 2).sum := by
    apply List.single_le_sum _ _ hmem
    intro x hx
    obtain ⟨q, _, rfl⟩ := List.mem_map.mp hx
    exact sq_nonneg _
  have hpos : 0 < (p - l.sum / (l.length : ℚ)) ^ 2 := by positivity
  have hden : 0 < (l.length : ℚ) - 1 := by
    have : (2 : ℚ) ≤ (l.length : ℚ) := by exact_mod_cast hlen
    linarith
  rw [hv]
  exact div_pos (lt_of_lt_of_le hpos hle) hden

/-! ### Structure of parsePrices and of the scorer result -/

theorem parsePrices_fst {data : List SRow} {l : List (SRow × ℚ)}
    (h : parsePrices data = some l) : l.map Prod.fst = data := by
  induction data generalizing l with
  | nil => unfold parsePrices at h; simp_all
  | cons r rs ih =>
    unfold parsePrices at h
    rcases hq : r.price.asNum with _ | q <;> rw [hq] at h
    · simp at h
    · rcases hrest : parsePrices rs with _ | rest <;> rw [hrest] at h
      · simp at h
      · obtain rfl := (Option.some_injective _ h).symm
        simp [ih hrest]

theorem parsePrices_asNum {data : List SRow} {l : List (SRow × ℚ)}
    (h : parsePrices data = some l) : ∀ rq ∈ l, rq.1.price.asNum = some rq.2 := by
  induction data generalizing l with
  | nil => unfold parsePrices at h; simp_all
  | cons r rs ih =>
    unfold parsePrices at h
    rcases hq : r.price.asNum with _ | q <;> rw [hq] at h
    · simp at h
    · rcases hrest : parsePrices rs with _ | rest <;> rw [hrest] at h
      · simp at h
      · obtain rfl := (Option.some_injective _ h).symm
        intro rq hrq
        rcases List.mem_cons.mp hrq with rfl | hmem
        · exact hq
        · exact ih hrest rq hmem

theorem parsePrices_snd {data : List SRow} {l : List (SRow × ℚ)}
    (h : parsePrices data = some l) : (l.map fun rq => rq.2) = outPrices data := by
  induction data generalizing l with
  | nil => unfold parsePrices at h; simp_all [outPrices]
  | cons r rs ih =>
    unfold parsePrices at h
    rcases hq : r.price.asNum with _ | q <;> rw [hq] at h
    · simp at h
    · rcases hrest : parsePrices rs with _ | rest <;> rw [hrest] at h
      · simp at h
      · obtain rfl := (Option.some_injective _ h).symm
        simp [outPrices, List.filterMap_cons, hq, ih hrest]

/-- Elimination form of a successful detect_outliers call: the null screen
passed, the whole Price column parsed, the post-call frame is the scored
rows, and the outlier frame is the filtered rows, decorated when nonempty. -/
theorem detect_outliers_ok_elim {data post outs : List SRow}
    (h : detect_outliers data = .ok (post, outs)) :
    data.any SRow.hasNull = false ∧
    ∃ l, parsePrices data = some l ∧
      post = l.map (fun rq => scoreRow rq.1 rq.2 (meanQ (outPrices data))) ∧
      outs = (if (post.filter fun r => pmGtThreshold r.pm (svarQ (outPrices data))).isEmpty
              then post.filter fun r => pmGtThreshold r.pm (svarQ (outPrices data))
              else (post.filter fun r => pmGtThreshold r.pm (svarQ (outPrices data))).map
                     fun r => markOutlier r (meanQ (outPrices data)) (svarQ (outPrices data))) := by
  unfold detect_outliers at h
  split at h
  · exact absurd h (by simp)
  · rename_i hnull
    rcases hl : parsePrices data with _ | l <;> rw [hl] at h
    · simp at h
    · simp only [isinfOpt, Bool.or_self, Bool.false_eq_true, if_false] at h
      rw [Except.ok.injEq, Prod.mk.injEq] at h
      obtain ⟨hpost, houts⟩ := h
      have hsnd := parsePrices_snd hl
      refine ⟨by simpa using hnull, l, rfl, ?_, ?_⟩
      · rw [← hpost, hsnd]
      · rw [← houts, ← hpost, hsnd]

/-! ### Concrete data used by the witnesses and counterexamples -/

/-- A headerless 30-row file: 29 rows at price 100 and one row at 1000.
Window mean 130, sample variance 27000. -/
def file0 : List (List String) :=
  (List.replicate 29 ["A", "1", "100"]) ++ [["A", "2", "1000"]]

/-- A headerless 30-row file with all prices equal: no variance, no
outliers. -/
def file1 : List (List String) := List.replicate 30 ["A", "1", "100"]

/-- A headerless 29-row file: one row short of the default window size. -/
def file29 : List (List String) := List.replicate 29 ["A", "1", "100"]

/-- The 30-row window used by the Scorer-level witnesses: the rows of file0
after timestamp coercion (29 rows at price 100 and one at 1000; window mean
130, sample variance 27000).  Built directly, since the sampler of the
source never completes a draw. -/
def sampled0 : List SRow :=
  (List.replicate 29 { name := "A", timestamp := some 1, price := PCell.raw "100" }) ++
  [{ name := "A", timestamp := some 2, price := PCell.raw "1000" }]

/-- The post-call state of the sampled frame after scoring file0. -/
def post0 : List SRow := ((detect_outliers sampled0).toOption.getD ([], [])).1

/-- The outlier frame the scorer returns on file0. -/
def outs0 : List SRow := ((detect_outliers sampled0).toOption.getD ([], [])).2

/-- The scored row with price 1000, the last row of post0. -/
def rOut : SRow := post0.getD 29 { name := "", timestamp := none, price := PCell.raw "" }

/-- A valid single-row window. -/
def w1 : List SRow := [{ name := "A", timestamp := some 1, price := PCell.raw "5" }]

/-- A valid two-row window with distinct prices. -/
def w2 : List SRow :=
  [{ name := "A", timestamp := some 1, price := PCell.raw "1" },
   { name := "A", timestamp := some 2, price := PCell.raw "2" }]

/-- The post-call state of w2 after scoring. -/
def post2 : List SRow := ((detect_outliers w2).toOption.getD ([], [])).1

/-! ### The claims -/

/-- C1.  For every window that passes the missing-value and numeric checks
and whose mean and sample standard deviation are defined, a row of the
scored frame is flagged as an outlier (appears in the outlier frame, up to
the decoration of the extra columns) if and only if its price satisfies
Price - mean > 2 * std_dev, where std_dev is the square root of the
ddof = 1 sample variance.  The inequality is strict and one-sided. -/
theorem outlier_flagged_iff_above_two_sigma (w post outs : List SRow) (m v : ℚ)
    (hdet : detect_outliers w = .ok (post, outs))
    (hm : meanQ (outPrices w) = some m)
    (hv : svarQ (outPrices w) = some v) :
    ∀ r ∈ post, ∀ p : ℚ, r.price = PCell.num p →
      (r.core ∈ outs.map SRow.core ↔ ((p : ℝ) - (m : ℝ) > 2 * Real.sqrt (v : ℝ))) := by
  obtain ⟨hnull, l, hl, hpost, houts⟩ := detect_outliers_ok_elim hdet
  rw [hm] at hpost houts
  rw [hv] at houts
  have hrow : ∀ r' ∈ post, ∃ q : ℚ, r'.price = PCell.num q ∧ r'.pm = some (some (q - m)) := by
    intro r' hr'
    rw [hpost] at hr'
    obtain ⟨rq, _, rfl⟩ := List.mem_map.mp hr'
    exact ⟨rq.2, rfl, rfl⟩
  have hmapcore : outs.map SRow.core =
      (post.filter fun r => pmGtThreshold r.pm (some v)).map SRow.core := by
    rw [houts]
    split
    · rfl
    · rw [List.map_map]
      rfl
  intro r hr p hp
  obtain ⟨q, hq, hpm⟩ := hrow r hr
  rw [hp] at hq
  obtain rfl := PCell.num.inj hq
  rw [hmapcore]
  constructor
  · intro hmem
    obtain ⟨r', hr'f, hcore⟩ := List.mem_map.mp hmem
    have hr'post := List.mem_filter.mp hr'f
    obtain ⟨q', hq', hpm'⟩ := hrow r' hr'post.1
    have hpr : r'.price = r.price := congrArg (fun c => c.2.2) hcore
    rw [hp] at hpr
    rw [hpr] at hq'
    obtain rfl := PCell.num.inj hq'
    have hflag := hr'post.2
    rw [hpm'] at hflag
    have := (pmGtThreshold_iff_real (p - m) v (svarQ_nonneg hv)).mp hflag
    push_cast at this
    linarith
  · intro hineq
    have hflag : pmGtThreshold r.pm (some v) = true := by
      rw [hpm]
      apply (pmGtThreshold_iff_real (p - m) v (svarQ_nonneg hv)).mpr
      push_cast
      linarith
    exact List.mem_map_of_mem _ (List.mem_filter.mpr ⟨hr, hflag⟩)

/-- Witness for C1: on the concrete window of file0, the flagged row with
price 1000 indeed lies strictly above mean + 2 * std_dev. -/
theorem outlier_flagged_iff_above_two_sigma_witness :
    ((1000 : ℚ) : ℝ) - ((130 : ℚ) : ℝ) > 2 * Real.sqrt ((27000 : ℚ) : ℝ) := by
  have h := outlier_flagged_iff_above_two_sigma sampled0 post0 outs0 130 27000
    (by with_unfolding_all rfl) (by with_unfolding_all rfl) (by with_unfolding_all rfl)
    rOut (by with_unfolding_all decide) 1000 (by with_unfolding_all rfl)
  exact h.mp (by with_unfolding_all decide)

/-- Inversion of a true outlier test: both operands are present and finite,
the deviation is positive and its square exceeds four times the variance. -/
theorem pmGtThreshold_eq_true {a : Option (Option ℚ)} {b : Option ℚ}
    (h : pmGtThreshold a b = true) :
    ∃ x v, a = some (some x) ∧ b = some v ∧ 0 < x ∧ 4 * v < x ^ 2 := by
  match a, b with
  | some (some x), some v =>
    simp only [pmGtThreshold, Bool.and_eq_true, decide_eq_true_eq] at h
    exact ⟨x, v, rfl, rfl, h.1, h.2⟩
  | none, _ => simp [pmGtThreshold] at h
  | some none, _ => simp [pmGtThreshold] at h
  | some (some x), none => simp [pmGtThreshold] at h

/-- C10.  Whenever the Outlier Scorer flags at least one row, the sample
variance of the window prices is defined and strictly positive, so the
threshold 2 * std_dev is a nonzero (positive) real number and the division
by it in the outlier % Deviation is never a division by zero. -/
theorem flagged_nonempty_implies_positive_variance (w post outs : List SRow)
    (hdet : detect_outliers w = .ok (post, outs)) (hne : outs ≠ []) :
    ∃ v : ℚ, svarQ (outPrices w) = some v ∧ 0 < v ∧ (0 : ℝ) < 2 * Real.sqrt (v : ℝ) := by
  obtain ⟨hnull, l, hl, hpost, houts⟩ := detect_outliers_ok_elim hdet
  have hfl : (post.filter fun r => pmGtThreshold r.pm (svarQ (outPrices w))) ≠ [] := by
    intro h0
    rw [houts, h0] at hne
    simp at hne
  obtain ⟨r, hrf⟩ := List.exists_mem_of_ne_nil _ hfl
  have hrpost := List.mem_filter.mp hrf
  obtain ⟨x, v, hpm, hsv, hx, hxx⟩ := pmGtThreshold_eq_true hrpost.2
  have hvpos : 0 < v := by
    rw [hpost] at hrpost
    obtain ⟨rq, hrq, heq⟩ := List.mem_map.mp hrpost.1
    have hpmval : r.pm = some (osub (some rq.2) (meanQ (outPrices w))) := by rw [← heq]; rfl
    rw [hpm] at hpmval
    obtain hosub := Option.some_injective _ hpmval
    rcases hmean : meanQ (outPrices w) with _ | mval
    · rw [hmean] at hosub
      simp [osub] at hosub
    · rw [hmean] at hosub
      simp only [osub, Option.some.injEq] at hosub
      obtain ⟨hnil, hmv⟩ := meanQ_some hmean
      have hqmem : rq.2 ∈ outPrices w := by
        rw [← parsePrices_snd hl]
        exact List.mem_map_of_mem _ hrq
      apply svarQ_pos hsv hqmem
      rw [← hmv]
      rw [hosub] at hx
      intro h0
      rw [h0] at hx
      exact lt_irrefl 0 hx
  refine ⟨v, hsv, hvpos, ?_⟩
  have hs : 0 < Real.sqrt (v : ℝ) := Real.sqrt_pos.mpr (by exact_mod_cast hvpos)
  linarith

/-- Witness for C10: on the concrete window of file0, whose outlier frame is
nonempty, the sample variance 27000 is positive, as is the threshold. -/
theorem flagged_nonempty_implies_positive_variance_witness :
    0 < (27000 : ℚ) ∧ (0 : ℝ) < 2 * Real.sqrt ((27000 : ℚ) : ℝ) := by
  obtain ⟨v, hv, h1, h2⟩ := flagged_nonempty_implies_positive_variance sampled0 post0 outs0
    (by with_unfolding_all rfl) (by with_unfolding_all decide)
  have hv' : svarQ (outPrices sampled0) = some 27000 := by with_unfolding_all rfl
  rw [hv] at hv'
  obtain rfl := Option.some_injective _ hv'
  exact ⟨h1, h2⟩

/-- Helper: whenever not every timestamp is invalid, the sampler fails at
the line-56 draw with the AttributeError of the nonexistent sample method,
whatever the table size, the drawn index or the sample size. -/
theorem rdp_always_attribute_error (f : List (List String)) (chosen n : ℕ)
    (hts : (coerceRows f).all (fun r => r.timestamp = none) = false) :
    random_data_points chosen f n = .error .attributeError := by
  simp only [random_data_points]
  rw [if_neg (by simp [hts])]

/-- Helper: the sampler never returns a window and never raises the
InsufficientData error of its dead line-65 check: its only results are
InvalidTimestamps and the line-56 AttributeError. -/
theorem rdp_no_success_path (f : List (List String)) (chosen n : ℕ) :
    random_data_points chosen f n = .error .invalidTimestamps ∨
    random_data_points chosen f n = .error .attributeError := by
  simp only [random_data_points]
  rcases h : (coerceRows f).all fun r => r.timestamp = none
  · exact Or.inr (by simp)
  · exact Or.inl (by simp)

/-- Counterexample to C3.  The candidate start set of the source excludes
the last 29 indices regardless of the sample size: for a 40-row table and
N = 35, index 10 is drawable although the spec excludes the last N - 1 = 34
indices, and the two sets differ. -/
theorem sampler_candidates_ignore_num_points :
    (10 ∈ candidateStarts 40 ∧ 10 ∉ specCandidateStarts 40 35) ∧
    candidateStarts 40 ≠ specCandidateStarts 40 35 := by decide

/-- C3 as amended.  For every table with some valid timestamp and every
sample size N, the Window Sampler constructs the candidate start set as all
row indices excluding the last 29 of the table (hard-coded, equal to N - 1
only at the default N = 30), but the draw from that set never happens:
line 56 fails with AttributeError because pandas.Index has no sample
method, so no start index is chosen and no window is realized.  The
backward clamp written at line 59, start = max(0, chosen - N + 1), is dead
code; its formula is clampStart. -/
theorem sampler_clamped_start (f : List (List String)) (N chosen : ℕ)
    (hts : (coerceRows f).all (fun r => r.timestamp = none) = false) :
    random_data_points chosen f N = .error .attributeError ∧
    candidateStarts (coerceRows f).length = List.range ((coerceRows f).length - 29) ∧
    ((clampStart chosen N : ℕ) : ℤ) = max 0 ((chosen : ℤ) - (N : ℤ) + 1) :=
  ⟨rdp_always_attribute_error f chosen N hts, rfl, by simp only [clampStart]; omega⟩

/-- Witness for C3 as amended, on the 30-row file0 with a non-default
sample size: the draw fails and the dead clamp formula equals the max
expression. -/
theorem sampler_clamped_start_witness :
    random_data_points 10 file0 35 = .error .attributeError ∧
    candidateStarts (coerceRows file0).length = List.range ((coerceRows file0).length - 29) ∧
    ((clampStart 10 35 : ℕ) : ℤ) = max 0 ((10 : ℤ) - (35 : ℤ) + 1) :=
  sampler_clamped_start file0 35 10 (by with_unfolding_all rfl)

/-- Counterexample to C4.  The valid 30-row table file0 does not yield a
window at all, and the valid 29-row table file29 fails with the line-56
AttributeError, not with the InsufficientData error of the (dead)
window-length check: both halves of the claim fail at concrete inputs. -/
theorem sampler_no_window_wrong_error_kind :
    random_data_points 0 file0 = .error .attributeError ∧
    random_data_points 0 file29 = .error .attributeError ∧
    random_data_points 0 file29 ≠ .error .insufficientData := by
  refine ⟨?_, ?_, ?_⟩
  · with_unfolding_all rfl
  · with_unfolding_all rfl
  · with_unfolding_all decide

/-- C4 as amended.  For every input file with at least one valid timestamp,
the Window Sampler fails with the AttributeError of the nonexistent
Index.sample at line 56, regardless of whether the table has 30 or more
rows or fewer; it never returns a window (for any file, draw and sample
size), and it never raises the InsufficientData error, whose check is dead
code. -/
theorem sampler_window_size :
    (∀ (f : List (List String)) (chosen n : ℕ),
        (coerceRows f).all (fun r => r.timestamp = none) = false →
        random_data_points chosen f n = .error .attributeError) ∧
    (∀ (f : List (List String)) (chosen n : ℕ) (w : List SRow),
        random_data_points chosen f n ≠ .ok w) ∧
    (∀ (f : List (List String)) (chosen n : ℕ),
        random_data_points chosen f n ≠ .error .insufficientData) := by
  refine ⟨fun f chosen n hts => rdp_always_attribute_error f chosen n hts, ?_, ?_⟩
  · intro f chosen n w h
    rcases rdp_no_success_path f chosen n with h2 | h2 <;> rw [h2] at h <;> exact Except.noConfusion h
  · intro f chosen n h
    rcases rdp_no_success_path f chosen n with h2 | h2 <;> rw [h2] at h <;>
      exact PErr.noConfusion (Except.error.inj h)

/-- Witness for C4 as amended: the 30-row file0 fails with the line-56
AttributeError. -/
theorem sampler_window_size_witness :
    random_data_points 0 file0 = .error .attributeError :=
  sampler_window_size.1 file0 0 30 (by with_unfolding_all rfl)


/-- C2 (evaluation at the failing input).  The claim describes the report
and scorer formulas of lines 104-111 and 136-143, which are written in the
source exactly as the claim states them, but the program can never execute
them: file0 is a well-formed headerless 30-row table whose window would
contain one outlier, yet process_file logs the line-56 AttributeError and
writes nothing; in fact every run of process_file, for every file, ends in
a logged error, so no report row ever exists and the wrapper outcomes
noOutliers and reportWritten are unreachable. -/
theorem report_never_written :
    process_file 0 "a.csv" file0 = .errorLogged "a.csv" .attributeError ∧
    ∀ chosen path f, ∃ e, process_file chosen path f = .errorLogged path e := by
  constructor
  · with_unfolding_all rfl
  · intro chosen path f
    rcases hdf : (read_csv_with_headers f).isEmpty
    · rcases rdp_no_success_path f chosen 30 with hr | hr
      · exact ⟨.invalidTimestamps, by simp [process_file, process_fileInner, hdf, hr]⟩
      · exact ⟨.attributeError, by simp [process_file, process_fileInner, hdf, hr]⟩
    · exact ⟨.emptyFile, by simp [process_file, process_fileInner, hdf]⟩

/-- C5.  Every error of the per-file pipeline is caught by process_file and
turned into a logged outcome carrying the file path; and with an eligible
file count of 1 or 2 the orchestrator maps every eligible file to its own
outcome, so each file is processed regardless of the failures of the
others. -/
theorem per_file_failure_isolated :
    (∀ chosen path f e, process_fileInner chosen path f = .error e →
        process_file chosen path f = .errorLogged path e) ∧
    (∀ rand files, ((csvList files).length = 1 ∨ (csvList files).length = 2) →
        process_files_in_directory rand (some files) =
          .ok ((csvList files).mapIdx fun i g => process_file (rand i) g.name g.content)) := by
  constructor
  · intro chosen path f e h
    unfold process_file
    rw [h]
  · intro rand files hcount
    simp only [process_files_in_directory]
    rw [if_pos hcount]

/-- Witness for C5: a directory with a malformed first file (header only,
so the table is empty, failing with EmptyFile) and a well-formed second
file; the second file is still processed and gets its own independently
logged outcome (the line-56 AttributeError every non-empty file ends in),
so the batch continues past the first failure. -/
theorem per_file_failure_isolated_witness :
    process_files_in_directory (fun _ => 0)
      (some [⟨"a.csv", [canonHeader]⟩, ⟨"b.csv", file1⟩]) =
      .ok [.errorLogged "a.csv" .emptyFile, .errorLogged "b.csv" .attributeError] := by
  rw [per_file_failure_isolated.2 (fun _ => 0) [⟨"a.csv", [canonHeader]⟩, ⟨"b.csv", file1⟩]
    (by with_unfolding_all decide)]
  with_unfolding_all rfl

/-- C6.  A missing directory fails with DirectoryNotFound, an eligible-file
count other than 1 or 2 fails with InvalidFileCount, and in both cases the
orchestrator returns that single error with no per-file outcome, so the
failure precedes any file processing. -/
theorem dir_validation_errors_propagate :
    (∀ rand, process_files_in_directory rand none = .error .directoryNotFound) ∧
    (∀ rand files, ¬((csvList files).length = 1 ∨ (csvList files).length = 2) →
        process_files_in_directory rand (some files) = .error .invalidFileCount) := by
  constructor
  · intro rand
    rfl
  · intro rand files h
    simp only [process_files_in_directory]
    rw [if_neg h]

/-- Witness for C6: a nonexistent directory and an empty directory. -/
theorem dir_validation_errors_propagate_witness :
    process_files_in_directory (fun _ => 0) none = .error .directoryNotFound ∧
    process_files_in_directory (fun _ => 0) (some []) = .error .invalidFileCount :=
  ⟨dir_validation_errors_propagate.1 _,
   dir_validation_errors_propagate.2 _ [] (by decide)⟩

/-- Counterexample to C7.  A valid one-row window has an undefined (NaN)
sample standard deviation, yet the Scorer does not fail with
DegenerateStatistics: np.isinf is false on NaN, so the call returns an
empty outlier frame. -/
theorem one_row_window_not_degenerate_error :
    detect_outliers w1 =
      .ok ([scoreRow { name := "A", timestamp := some 1, price := PCell.raw "5" } 5 (some 5)], []) ∧
    detect_outliers w1 ≠ .error .degenerateStatistics := by
  constructor
  · with_unfolding_all rfl
  · with_unfolding_all decide

/-- C7 as amended.  The Scorer raises DegenerateStatistics only for
infinite statistics, which exact arithmetic on finite inputs never
produces; a window with undefined statistics, such as a one-row window,
returns successfully with an empty outlier frame. -/
theorem degenerate_check_only_infinite (w : List SRow) :
    detect_outliers w ≠ .error .degenerateStatistics ∧
    (∀ r q, w = [r] → r.hasNull = false → r.price.asNum = some q →
      detect_outliers w = .ok ([scoreRow r q (some q)], [])) := by
  constructor
  · intro heq
    unfold detect_outliers at heq
    split at heq
    · simp at heq
    · rcases hl : parsePrices w with _ | l <;> rw [hl] at heq
      · simp at heq
      · simp [isinfOpt] at heq
  · rintro r q rfl hnull hq
    have hany : [r].any SRow.hasNull = false := by simp [hnull]
    have hpp : parsePrices [r] = some [(r, q)] := by
      unfold parsePrices
      rw [hq]
      rfl
    simp only [detect_outliers, hany, Bool.false_eq_true, if_false, hpp]
    have hmean : meanQ [q] = some q := by
      simp [meanQ]
    have hsvar : svarQ [q] = none := by
      simp [svarQ]
    simp only [List.map_cons, List.map_nil, hmean, hsvar, isinfOpt, Bool.or_self,
      Bool.false_eq_true, if_false]
    have hflag : pmGtThreshold (scoreRow r q (some q)).pm none = false := rfl
    simp [hflag]

/-- Witness for C7 as amended, at the concrete one-row window w1. -/
theorem degenerate_check_only_infinite_witness :
    detect_outliers w1 =
      .ok ([scoreRow { name := "A", timestamp := some 1, price := PCell.raw "5" } 5 (some 5)], []) :=
  (degenerate_check_only_infinite w1).2 _ 5 rfl (by with_unfolding_all rfl)
    (by with_unfolding_all rfl)

/-- Counterexample to C8.  For the data rows [canonHeader], the
header-prefixed file loads to one record while the headerless file loads to
zero records: the loader consumes the first data row as a header. -/
theorem loader_header_presence_not_invariant :
    read_csv_with_headers (canonHeader :: [canonHeader]) ≠ read_csv_with_headers [canonHeader] := by
  with_unfolding_all decide

/-- C8 as amended.  Prefixing the canonical header leaves the loaded data
equal to the rows parsed positionally, and equal to the loader output on
the headerless file provided the first data row is not itself textually the
canonical header. -/
theorem loader_header_invariance (rows : List (List String)) :
    read_csv_with_headers (canonHeader :: rows) = rows.map toRecord ∧
    (rows.head? ≠ some canonHeader →
      read_csv_with_headers (canonHeader :: rows) = read_csv_with_headers rows) := by
  constructor
  · simp [read_csv_with_headers]
  · intro h
    simp [read_csv_with_headers, h]

/-- Witness for C8 as amended, on a one-row data file. -/
theorem loader_header_invariance_witness :
    read_csv_with_headers (canonHeader :: [["A", "1", "2"]]) = [["A", "1", "2"]].map toRecord ∧
    read_csv_with_headers (canonHeader :: [["A", "1", "2"]]) =
      read_csv_with_headers [["A", "1", "2"]] :=
  ⟨(loader_header_invariance [["A", "1", "2"]]).1,
   (loader_header_invariance [["A", "1", "2"]]).2 (by with_unfolding_all decide)⟩

/-- Counterexample to C9.  Scoring the valid window w2 succeeds, yet the
post-call state of the window differs from the window passed in: the
Scorer coerces Price and adds the Price-Mean and % Deviation columns in
place. -/
theorem scorer_mutates_window_counterexample :
    detect_outliers w2 = .ok (post2, []) ∧ post2 ≠ w2 := by
  constructor
  · with_unfolding_all rfl
  · with_unfolding_all decide

/-- C9 as amended.  The Scorer returns the outlier report as a new value,
but it mutates the window it was given: after every successful scoring of a
nonempty window that arrived with only the three canonical columns, the
post-call state of the window differs from its pre-call state. -/
theorem scorer_post_state_differs (w post outs : List SRow)
    (hdet : detect_outliers w = .ok (post, outs))
    (hcanon : ∀ r ∈ w, r.pm = none) (hw : w ≠ []) : post ≠ w := by
  obtain ⟨hnull, l, hl, hpost, houts⟩ := detect_outliers_ok_elim hdet
  have hfst := parsePrices_fst hl
  intro heq
  cases l with
  | nil =>
    rw [← hfst] at hw
    simp at hw
  | cons rq l2 =>
    rw [hpost] at heq
    rw [← hfst] at heq
    simp only [List.map_cons, List.cons.injEq] at heq
    have hpm := congrArg SRow.pm heq.1
    have hmem : rq.1 ∈ w := by
      rw [← hfst]
      exact List.mem_map_of_mem _ (List.mem_cons_self _ _)
    rw [hcanon rq.1 hmem] at hpm
    simp [scoreRow] at hpm

/-- Witness for C9 as amended, at the concrete window w2. -/
theorem scorer_post_state_differs_witness : post2 ≠ w2 :=
  scorer_post_state_differs w2 post2 [] (by with_unfolding_all rfl)
    (by with_unfolding_all decide) (by with_unfolding_all decide)

end OutlierLas
